import Mathlib

/-!
Shallow embedding of the notification lifecycle manager of
`react/features/notifications/actions.js` (plus the timer registry of the
notifications middleware), together with theorems checking the spec's claims
against it.  Dynamic JavaScript values are embedded as `JSVal` (with `Option`
standing for `undefined`), thrown exceptions as `Except JsErr`, and redux
dispatches as returned events / effect lists.
-/

set_option autoImplicit false

/-- A primitive JavaScript value (`undefined` is represented by `Option`). -/
inductive JSVal where
  | null
  | bool (b : Bool)
  | num (n : Int)
  | str (s : String)
deriving DecidableEq, Repr

/-- JavaScript truthiness of a primitive value. -/
def JSVal.truthy : JSVal → Bool
  | .null => false
  | .bool b => b
  | .num n => n != 0
  | .str s => s != ""

/-- Truthiness of a possibly-`undefined` value (`undefined` is falsy). -/
def jsTruthyOpt : Option JSVal → Bool
  | none => false
  | some v => v.truthy

/-- JavaScript `a || b`: the left operand when truthy, otherwise the right. -/
def jsOr : Option JSVal → JSVal → JSVal
  | some v, d => if v.truthy then v else d
  | none, d => d

/-- JavaScript `a ?? b` (nullish coalescing): `b` when `a` is undefined or null. -/
def nullishGet : Option JSVal → JSVal → JSVal
  | none, d => d
  | some v, d => if v = .null then d else v

/-- The `senderInfo` field of a parsed description: either `null` or an object
with an optional `name` field. -/
inductive SenderVal where
  | null
  | obj (name : Option JSVal)
deriving DecidableEq, Repr

/-- The object obtained by `JSON.parse` of a notification's `description`
string; the fields read by `showNotification`. -/
structure DescObj where
  id : Option JSVal := none
  senderInfo : Option SenderVal := none
  deviceMessageType : Option JSVal := none
  handledAt : Option JSVal := none
  sendTo : Option JSVal := none
  isRaisedHand : Option JSVal := none
  content : Option JSVal := none
deriving DecidableEq, Repr

/-- A `description` value as supplied by a caller: the raw string together with
the result of `JSON.parse` on it (`none` when parsing would throw). -/
structure RawDesc where
  raw : String
  parsed : Option DescObj
deriving DecidableEq, Repr

/-- The props object handed to `showNotification` by a caller. -/
structure PropsObj where
  description : Option RawDesc := none
  descriptionKey : Option JSVal := none
  titleKey : Option JSVal := none
  uid : Option JSVal := none
  titleArguments : List (String × JSVal) := []
deriving DecidableEq, Repr

/-- The `props` argument of `showNotification` as a dynamic value: `undefined`
(the default `{}` applies), `null`, a primitive, or an object. -/
inductive PropsArg where
  | undef
  | null
  | bool (b : Bool)
  | num (n : Int)
  | str (s : String)
  | obj (p : PropsObj)
deriving DecidableEq, Repr

/-- The state of a props object's `description` field after
`restructureProps`/content resolution: the untouched raw string (falsy
description), the parsed object, or a resolved value. -/
inductive DescFin where
  | raw (s : String)
  | parsed (d : DescObj)
  | text (v : JSVal)
deriving DecidableEq, Repr

/-- The props object as mutated by `showNotification` (the same JavaScript
object the caller holds; mutation is embedded as state passing). -/
structure FinalProps where
  description : Option DescFin := none
  descriptionKey : Option JSVal := none
  titleKey : Option JSVal := none
  uid : Option JSVal := none
  titleArguments : List (String × JSVal) := []
  messageId : Option JSVal := none
  title : Option JSVal := none
  isEndStream : Option Bool := none
  isMicMuted : Option (Option Bool) := none
deriving DecidableEq, Repr

/-- The value of `props` after `restructureProps`: a primitive passed through
unchanged, or the (restructured) object. -/
inductive RArg where
  | bool (b : Bool)
  | num (n : Int)
  | str (s : String)
  | obj (p : FinalProps)
deriving DecidableEq, Repr

/-- JavaScript truthiness of the restructured props (objects are truthy). -/
def RArg.truthy : RArg → Bool
  | .bool b => b
  | .num n => n != 0
  | .str s => s != ""
  | .obj _ => true

/-- A thrown JavaScript exception: `TypeError` from a property access on
`null`/`undefined`, or a `SyntaxError` from `JSON.parse`. -/
inductive JsErr where
  | typeError
  | parseError
deriving DecidableEq, Repr

/-- `props.description?.deviceMessageType` on the (restructured) description. -/
def descDmt : Option DescFin → Option JSVal
  | some (.parsed d) => d.deviceMessageType
  | _ => none

/-- `isAudioMuted` on a description: `"PAUSE_SESSION"` gives `true` (muted),
`"RESUME_SESSION"` gives `false`, anything else gives `null` (`none`). -/
def isAudioMutedDesc (desc : Option DescFin) : Option Bool :=
  if descDmt desc = some (JSVal.str "PAUSE_SESSION") then some true
  else if descDmt desc = some (JSVal.str "RESUME_SESSION") then some false
  else none

/-- `isAudioMuted(props)` from `showNotification` (line 148): reads
`props.description?.deviceMessageType` through optional chaining. -/
def isAudioMuted : RArg → Option Bool
  | .obj p => isAudioMutedDesc p.description
  | _ => none

/-- The untouched (non-description) fields of the props object carried over
into the restructured object. -/
def baseFinal (p : PropsObj) : FinalProps :=
  { description := none
    descriptionKey := p.descriptionKey
    titleKey := p.titleKey
    uid := p.uid
    titleArguments := p.titleArguments }

/-- `props.messageId` as assigned by `restructureProps` (line 141):
`description.id` when loosely `!= null`, else the sentinel `"raisAHand"`. -/
def messageIdOf (d : DescObj) : JSVal :=
  match d.id with
  | some v => if v = .null then JSVal.str "raisAHand" else v
  | none => JSVal.str "raisAHand"

/-- `props.title` as assigned by `restructureProps` (line 142):
`description.senderInfo?.name` when `senderInfo` is defined (possibly
`undefined` when it is `null` or has no `name`), else the sentinel `"ViCE"`. -/
def titleOf (d : DescObj) : Option JSVal :=
  match d.senderInfo with
  | none => some (JSVal.str "ViCE")
  | some .null => none
  | some (.obj nm) => nm

/-- The props object after `restructureProps` parsed a truthy description
string into `d`: description replaced by the parsed object and the fields
`messageId`, `title`, `isEndStream`, `isMicMuted` added in place. -/
def restructuredObj (p : PropsObj) (d : DescObj) : FinalProps :=
  { baseFinal p with
    description := some (.parsed d)
    messageId := some (messageIdOf d)
    title := titleOf d
    isEndStream := some (decide (d.deviceMessageType = some (JSVal.str "CONSULTATION_ENDED")))
    isMicMuted := some (isAudioMutedDesc (some (.parsed d))) }

/-- `restructureProps` (lines 138-147): on an object with a truthy
`description` string, `JSON.parse` it (propagating a parse failure) and add the
derived fields; a falsy description is left alone; a primitive props is
returned unchanged; `null` props throws (`props.description` on `null`). -/
def restructureProps : PropsArg → Except JsErr RArg
  | .undef => .ok (.obj {})
  | .null => .error .typeError
  | .bool b => .ok (.bool b)
  | .num n => .ok (.num n)
  | .str s => .ok (.str s)
  | .obj p =>
    match p.description with
    | none => .ok (.obj (baseFinal p))
    | some rd =>
      if rd.raw = "" then .ok (.obj { baseFinal p with description := some (.raw rd.raw) })
      else
        match rd.parsed with
        | none => .error .parseError
        | some d => .ok (.obj (restructuredObj p d))

/-- The global config slice read by `showNotification` (line 158) together with
the resolved `NOTIFICATIONS_ENABLED` feature flag. -/
structure Config where
  enabledFlag : Bool
  disabledNotifications : List JSVal := []
  notifications : Option (List JSVal) := none
deriving DecidableEq, Repr

/-- The allow-list disjunct of the eligibility expression (lines 167-169):
`!notifications || notifications.includes(props.descriptionKey) ||
notifications.includes(props.titleKey)`. -/
def allowListOk (cfg : Config) (p : FinalProps) : Bool :=
  match cfg.notifications with
  | none => true
  | some l =>
    (match p.descriptionKey with
     | some v => decide (v ∈ l)
     | none => false)
    || (match p.titleKey with
        | some v => decide (v ∈ l)
        | none => false)

/-- `props.description?.sendTo` on the restructured props. -/
def descSendTo : Option DescFin → Option JSVal
  | some (.parsed d) => d.sendTo
  | _ => none

/-- `props.description?.isRaisedHand` on the restructured props. -/
def descRaised : Option DescFin → Option JSVal
  | some (.parsed d) => d.isRaisedHand
  | _ => none

/-- `props.description.handledAt` (line 165, no optional chaining): throws a
`TypeError` when `description` is `undefined` or `null`; a property access on a
string yields `undefined`. -/
def descHandledAt (p : FinalProps) : Except JsErr (Option JSVal) :=
  match p.description with
  | none => .error .typeError
  | some (.parsed d) => .ok d.handledAt
  | some (.raw _) => .ok none
  | some (.text v) =>
    match v with
    | .null => .error .typeError
    | _ => .ok none

/-- The tail of the eligibility expression after the first `||` (lines
165-169), grouped by JavaScript precedence (`&&` binds tighter than `||`). -/
def sdTail (cfg : Config) (p : FinalProps) : Bool :=
  (decide (descDmt p.description = some (JSVal.str "CONSULTATION_ENDED"))
    && decide (descSendTo p.description = some (JSVal.str "clinician")))
  || decide (descRaised p.description = some (JSVal.bool true))
  || (decide (descDmt p.description = some (JSVal.str "CONSULTATION_ENDED"))
    && allowListOk cfg p)

/-- The `shouldDisplay` expression (lines 163-169) on an object props.  The
first disjunct `enabledFlag && !props.description.handledAt` short-circuits, so
the unguarded `handledAt` access (and its `TypeError`) only happens when the
flag is truthy. -/
def shouldDisplayObj (cfg : Config) (p : FinalProps) : Except JsErr Bool :=
  if cfg.enabledFlag then
    match descHandledAt p with
    | .error e => .error e
    | .ok h => .ok (!jsTruthyOpt h || sdTail cfg p)
  else
    .ok (sdTail cfg p)

/-- `shouldDisplay` on the restructured props: a truthy primitive has an
`undefined` `description`, so the bare `handledAt` access throws when the flag
is truthy and every optional-chained disjunct is false otherwise. -/
def shouldDisplay (cfg : Config) : RArg → Except JsErr Bool
  | .obj p => shouldDisplayObj cfg p
  | _ => if cfg.enabledFlag then .error .typeError else .ok false

/-- `props.description.content` as read in the `"MESSAGE"` branch (line 173). -/
def descContent : Option DescFin → Option DescFin
  | some (.parsed d) => d.content.map DescFin.text
  | _ => none

/-- Content resolution (lines 172-182): the description is overwritten based on
`deviceMessageType`. -/
def resolveDescription (desc : Option DescFin) : Option DescFin :=
  if descDmt desc = some (JSVal.str "MESSAGE") then descContent desc
  else if descDmt desc = some (JSVal.str "CONSULTATION_ENDED") then
    some (.text (JSVal.str "Consulation phase has ended"))
  else if descDmt desc = some (JSVal.str "PAUSE_SESSION") then
    some (.text (JSVal.str "Session is paused"))
  else if descDmt desc = some (JSVal.str "RESUME_SESSION") then
    some (.text (JSVal.str "Session is resumed"))
  else some (.text (JSVal.str "Raised a Hand"))

/-- Modelled from the spec: the notification timeout class constants
(`NOTIFICATION_TIMEOUT_TYPE` from `./constants`, a file not present in the
sources): one of SHORT, MEDIUM, LONG, STICKY. -/
inductive NTType where
  | SHORT
  | MEDIUM
  | LONG
  | STICKY
deriving DecidableEq, Repr

/-- Modelled from the spec: the built-in `NOTIFICATION_TIMEOUT` constants from
`./constants` (file not present in the sources).  Their numeric values are
unspecified; the spec fixes only that STICKY means "never auto-hide", i.e. a
falsy timeout value that schedules no timer. -/
structure NTimeout where
  SHORT : JSVal
  MEDIUM : JSVal
  LONG : JSVal
  STICKY : JSVal
  INSTANT : JSVal
  sticky_falsy : STICKY.truthy = false

/-- The optional `notificationTimeouts` config overrides. -/
structure TimeoutOverrides where
  short : Option JSVal := none
  medium : Option JSVal := none
  long : Option JSVal := none
deriving DecidableEq, Repr

/-- `getNotificationTimeout` (lines 34-44): resolve a timeout class to the
configured override (nullish-coalesced with the built-in default), and
anything other than SHORT/MEDIUM/LONG to the STICKY value. -/
def getNotificationTimeout (type : Option NTType) (notificationTimeouts : Option TimeoutOverrides)
    (C : NTimeout) : JSVal :=
  if type = some NTType.SHORT then nullishGet (notificationTimeouts.bind (·.short)) C.SHORT
  else if type = some NTType.MEDIUM then nullishGet (notificationTimeouts.bind (·.medium)) C.MEDIUM
  else if type = some NTType.LONG then nullishGet (notificationTimeouts.bind (·.long)) C.LONG
  else C.STICKY

/-- The SHOW_NOTIFICATION action dispatched by `showNotification` (lines
184-189): the (mutated) props object, the resolved timeout and the uid. -/
structure ShowEvent where
  props : FinalProps
  timeout : JSVal
  uid : JSVal
deriving DecidableEq, Repr

/-- `showNotification` (lines 136-192), embedded as a function from the props
argument, the (unused) timeout-class argument, the config slice and the current
time to either a thrown exception or the optionally dispatched `ShowEvent`
together with the caller-visible props value after the call (the source
mutates the props object in place). -/
def showNotification (props0 : PropsArg) (type : Option NTType) (cfg : Config) (C : NTimeout)
    (now : Nat) : Except JsErr (Option ShowEvent × RArg) :=
  match restructureProps props0 with
  | .error e => .error e
  | .ok r =>
    if r.truthy = false then .ok (none, r)
    else
      match shouldDisplay cfg r with
      | .error e => .error e
      | .ok sd =>
        if sd then
          match r with
          | .obj p =>
            let p' : FinalProps := { p with description := resolveDescription p.description }
            .ok (some { props := p'
                        timeout := if (isAudioMuted (.obj p)).isSome then C.INSTANT else C.LONG
                        uid := jsOr p.uid (JSVal.str (Nat.repr now)) },
                 .obj p')
          | r' => .ok (none, r')
        else .ok (none, r)

/-- The dispatched show event of a `showNotification` run, if any. -/
def emittedEvent : Except JsErr (Option ShowEvent × RArg) → Option ShowEvent
  | .ok (some ev, _) => some ev
  | _ => none

/-- Whether a `showNotification` run dispatched a show event. -/
def emitted (r : Except JsErr (Option ShowEvent × RArg)) : Bool :=
  (emittedEvent r).isSome

/-- Modelled from the spec: the media-type selector passed to the
device-control collaborator (`MEDIA_TYPE.AUDIO` from `../base/media`, not in
the sources). -/
inductive MediaType where
  | AUDIO
deriving DecidableEq, Repr

/-- An effect dispatched by `hideNotification`, in dispatch order: the
`muteLocal` device command, the HIDE_NOTIFICATION event (with uid and the
conference active at hide time), or the `appNavigate` navigation action. -/
inductive HideEffect where
  | muteLocal (muted : Bool) (media : MediaType)
  | hideEvent (uid : String) (conference : Option String)
  | appNavigate
deriving DecidableEq, Repr

/-- `hideNotification` (lines 71-97), embedded as the ordered list of
dispatched effects.  With a snapshot: a non-null `isMicMuted` first dispatches
`muteLocal`; a truthy `isEndStream` dispatches the hide event and then (after
the dispatch resolves) `appNavigate`; otherwise only the hide event is
dispatched. -/
def hideNotification (uid : String) (notification : Option FinalProps)
    (conference : Option String) : List HideEffect :=
  match notification with
  | some n =>
    (match n.isMicMuted with
     | some (some b) => [HideEffect.muteLocal b MediaType.AUDIO]
     | _ => [])
    ++ (if n.isEndStream = some true then
          [HideEffect.hideEvent uid conference, HideEffect.appNavigate]
        else
          [HideEffect.hideEvent uid conference])
  | none => [HideEffect.hideEvent uid conference]

/-- Number of occurrences of an effect in a dispatch trace. -/
def countEff (e : HideEffect) : List HideEffect → Nat
  | [] => 0
  | a :: tl => (if a = e then 1 else 0) + countEff e tl

/-- The props the join flush builds for a single joined member (line 273). -/
def oneMemberProps (a : String) : PropsObj :=
  { titleArguments := [("name", JSVal.str a)]
    titleKey := some (JSVal.str "notify.connectedOneMember") }

/-- The props the join flush builds for exactly two joined members (line 265). -/
def twoMembersProps (a b : String) : PropsObj :=
  { titleArguments := [("first", JSVal.str a), ("second", JSVal.str b)]
    titleKey := some (JSVal.str "notify.connectedTwoMembers") }

/-- The props the join flush builds for three or more joined members
(line 258), referencing only the first name. -/
def threePlusProps (a : String) : PropsObj :=
  { titleArguments := [("name", JSVal.str a)]
    titleKey := some (JSVal.str "notify.connectedThreePlusMembers") }

/-- The outcome of one join/leave flush: the props handed to
`dispatch(showNotification(·, SHORT))` when that call is reached, the
exception that dispatch threw (a synchronous throw propagates out of the
flush, skipping the buffer-clearing assignment that follows it), the show
event it dispatched, and the buffer after the flush. -/
structure FlushResult where
  dispatched : Option PropsObj
  thrown : Option JsErr
  event : Option ShowEvent
  buffer : List String
deriving DecidableEq, Repr

/-- The body of `_throttledNotifyParticipantConnected` (lines 243-288): above
the silence threshold the buffer is cleared and nothing dispatched; otherwise
the template props selected by the buffer length are fed to
`dispatch(showNotification(notificationProps, SHORT))` (line 282), and only
when that call returns normally does line 286 clear the buffer — a thrown
exception leaves the buffer as it was.  `SILENT_JOIN_THRESHOLD` comes from
`./constants` (not in the sources) and is passed as a parameter. -/
def flushJoined (SILENT_JOIN_THRESHOLD : Nat) (participantCount : Nat) (cfg : Config)
    (C : NTimeout) (now : Nat) (joinedParticipantsNames : List String) : FlushResult :=
  if participantCount > SILENT_JOIN_THRESHOLD then
    { dispatched := none, thrown := none, event := none, buffer := [] }
  else
    let notificationProps : Option PropsObj :=
      match joinedParticipantsNames with
      | a :: _ :: _ :: _ => some (threePlusProps a)
      | [a, b] => some (twoMembersProps a b)
      | [a] => some (oneMemberProps a)
      | [] => none
    match notificationProps with
    | none => { dispatched := none, thrown := none, event := none, buffer := [] }
    | some np =>
      match showNotification (.obj np) (some NTType.SHORT) cfg C now with
      | .error e =>
        { dispatched := some np, thrown := some e, event := none,
          buffer := joinedParticipantsNames }
      | .ok (ev, _) => { dispatched := some np, thrown := none, event := ev, buffer := [] }

/-- The body of `_throttledNotifyParticipantLeft` (lines 307-352), the
analogue of `flushJoined` for the leave buffer and its `notify.left*`
templates, with the same dispatch-then-clear sequencing. -/
def flushLeft (SILENT_LEFT_THRESHOLD : Nat) (participantCount : Nat) (cfg : Config)
    (C : NTimeout) (now : Nat) (leftParticipantsNames : List String) : FlushResult :=
  if participantCount > SILENT_LEFT_THRESHOLD then
    { dispatched := none, thrown := none, event := none, buffer := [] }
  else
    let notificationProps : Option PropsObj :=
      match leftParticipantsNames with
      | a :: _ :: _ :: _ =>
        some { titleArguments := [("name", JSVal.str a)]
               titleKey := some (JSVal.str "notify.leftThreePlusMembers") }
      | [a, b] =>
        some { titleArguments := [("first", JSVal.str a), ("second", JSVal.str b)]
               titleKey := some (JSVal.str "notify.leftTwoMembers") }
      | [a] =>
        some { titleArguments := [("name", JSVal.str a)]
               titleKey := some (JSVal.str "notify.leftOneMember") }
      | [] => none
    match notificationProps with
    | none => { dispatched := none, thrown := none, event := none, buffer := [] }
    | some np =>
      match showNotification (.obj np) (some NTType.SHORT) cfg C now with
      | .error e =>
        { dispatched := some np, thrown := some e, event := none,
          buffer := leftParticipantsNames }
      | .ok (ev, _) => { dispatched := some np, thrown := none, event := ev, buffer := [] }

/-- The two fields of a notification destructured by `createTimeoutId`
(middleware lines 428-432). -/
structure TimerNotif where
  timeout : JSVal
  uid : String
deriving DecidableEq, Repr

/-- The timer state of the notifications middleware: `timers` is the `Map`
from uid to timeout handle, `armed` the multiset of pending `setTimeout`
callbacks (as uid/handle pairs, in creation order), and `nextId` the next
fresh handle. -/
structure TimerState where
  timers : List (String × Nat)
  armed : List (String × Nat)
  nextId : Nat
deriving DecidableEq, Repr

/-- `Map.prototype.set`: overwrite the value of an existing key, else append. -/
def mapSet : List (String × Nat) → String → Nat → List (String × Nat)
  | [], k, v => [(k, v)]
  | (k', v') :: rest, k, v =>
    if k' = k then (k, v) :: rest else (k', v') :: mapSet rest k v

/-- `createTimeoutId` (middleware lines 428-441): with a truthy timeout, start
a fresh `setTimeout` (arming a new timer) and store its handle in the `timers`
map under the notification's uid; nothing cancels or removes the earlier
timer of that uid. -/
def createTimeoutId (notification : TimerNotif) (s : TimerState) : TimerState :=
  if notification.timeout.truthy then
    { timers := mapSet s.timers notification.uid s.nextId
      armed := s.armed ++ [(notification.uid, s.nextId)]
      nextId := s.nextId + 1 }
  else s

/-- The initial timer state: empty registry, no armed timers. -/
def tsInit : TimerState := { timers := [], armed := [], nextId := 0 }

/-- Timer states reachable through the middleware's code: scheduling via
`createTimeoutId`, and a pending `setTimeout` firing (its callback dispatches
`hideNotification`, which touches neither the registry nor the other armed
timers; no code in the middleware calls `clearTimeout` or removes registry
entries). -/
inductive TimerReach : TimerState → Prop where
  | init : TimerReach tsInit
  | schedule (n : TimerNotif) {s : TimerState} :
      TimerReach s → TimerReach (createTimeoutId n s)
  | fire (e : String × Nat) {s : TimerState} :
      TimerReach s → e ∈ s.armed →
      TimerReach { s with armed := s.armed.erase e }

/-- Number of armed timers for a given uid. -/
def armedCount (uid : String) (s : TimerState) : Nat :=
  s.armed.countP (fun e => e.1 == uid)

/-- The props object after the display branch also overwrote the description
with the resolved text (lines 172-182): the object the caller and the
dispatched event both reference. -/
def dispProps (p : PropsObj) (d : DescObj) : FinalProps :=
  { restructuredObj p d with description := resolveDescription (some (.parsed d)) }

/-- A concrete instantiation of the timeout constants, for evaluating runs. -/
def Cdemo : NTimeout :=
  { SHORT := JSVal.num 2500
    MEDIUM := JSVal.num 5000
    LONG := JSVal.num 10000
    STICKY := JSVal.bool false
    INSTANT := JSVal.num 0
    sticky_falsy := rfl }

/-- Config with the notifications feature flag set. -/
def cfgOn : Config := { enabledFlag := true }

/-- Config with the notifications feature flag unset. -/
def cfgOff : Config := { enabledFlag := false }

/-- A parsed description carrying only a raised-hand marker. -/
def draise : DescObj := { isRaisedHand := some (JSVal.bool true) }

/-- The raw JSON text behind `draise`. -/
def raiseRaw : String := "\x7b\"isRaisedHand\":true\x7d"

/-- Props whose description is the raised-hand JSON string. -/
def pRaise : PropsObj := { description := some { raw := raiseRaw, parsed := some draise } }

/-- `pRaise` with a truthy caller-supplied uid. -/
def pRaiseU : PropsObj := { pRaise with uid := some (JSVal.str "alpha") }

/-- `pRaise` with a present but falsy (empty-string) caller-supplied uid. -/
def pUidEmpty : PropsObj := { pRaise with uid := some (JSVal.str "") }

/-- A parsed description with `deviceMessageType` PAUSE_SESSION. -/
def dPause : DescObj := { deviceMessageType := some (JSVal.str "PAUSE_SESSION") }

/-- The raw JSON text behind `dPause`. -/
def pauseRaw : String := "\x7b\"deviceMessageType\":\"PAUSE_SESSION\"\x7d"

/-- Props whose description is the PAUSE_SESSION JSON string. -/
def pPause : PropsObj := { description := some { raw := pauseRaw, parsed := some dPause } }

/-- The event emitted for `pPause` under `cfgOn` (extracted from the run). -/
def evPause : ShowEvent :=
  (emittedEvent (showNotification (PropsArg.obj pPause) none cfgOn Cdemo 7)).getD
    { props := {}, timeout := JSVal.null, uid := JSVal.null }

/-- The event emitted for `pRaiseU` under `cfgOn` (extracted from the run). -/
def evRaiseU : ShowEvent :=
  (emittedEvent (showNotification (PropsArg.obj pRaiseU) none cfgOn Cdemo 7)).getD
    { props := {}, timeout := JSVal.null, uid := JSVal.null }

/-- A hidden-notification snapshot declaring a mute state and end-of-stream. -/
def snapW : FinalProps := { isMicMuted := some (some true), isEndStream := some true }

/-- Timer state after scheduling twice for the same uid `"u"`. -/
def tsTwo : TimerState :=
  createTimeoutId { timeout := JSVal.num 5, uid := "u" }
    (createTimeoutId { timeout := JSVal.num 5, uid := "u" } tsInit)

/-- `tsTwo` after the second timer for `"u"` fires. -/
def tsFired : TimerState := { tsTwo with armed := tsTwo.armed.erase ("u", 1) }

lemma restructure_obj_parsed {p : PropsObj} {s : String} {d : DescObj}
    (hdesc : p.description = some { raw := s, parsed := some d }) (hs : s ≠ "") :
    restructureProps (.obj p) = .ok (.obj (restructuredObj p d)) := by
  simp [restructureProps, hdesc, hs]

lemma shouldDisplay_restructured (cfg : Config) (p : PropsObj) (d : DescObj) :
    shouldDisplayObj cfg (restructuredObj p d) =
      .ok ((cfg.enabledFlag && !jsTruthyOpt d.handledAt) || sdTail cfg (restructuredObj p d)) := by
  cases hf : cfg.enabledFlag <;>
    simp [shouldDisplayObj, descHandledAt, restructuredObj, baseFinal, hf]

lemma show_run_obj_parsed {p : PropsObj} {s : String} {d : DescObj}
    (type : Option NTType) (cfg : Config) (C : NTimeout) (now : Nat)
    (hdesc : p.description = some { raw := s, parsed := some d }) (hs : s ≠ "") :
    showNotification (.obj p) type cfg C now =
      if (cfg.enabledFlag && !jsTruthyOpt d.handledAt) || sdTail cfg (restructuredObj p d) then
        .ok (some { props := dispProps p d
                    timeout := if (isAudioMutedDesc (some (.parsed d))).isSome then C.INSTANT
                               else C.LONG
                    uid := jsOr p.uid (JSVal.str (Nat.repr now)) },
             .obj (dispProps p d))
      else .ok (none, .obj (restructuredObj p d)) := by
  unfold showNotification
  rw [restructure_obj_parsed hdesc hs]
  cases hb :
      ((cfg.enabledFlag && !jsTruthyOpt d.handledAt) || sdTail cfg (restructuredObj p d)) with
  | false =>
    simp only [shouldDisplay, RArg.truthy, shouldDisplay_restructured, hb]
    simp
  | true =>
    simp only [shouldDisplay, RArg.truthy, shouldDisplay_restructured, hb]
    simp [dispProps, restructuredObj, baseFinal, isAudioMuted]

lemma sdTail_restructured (cfg : Config) (p : PropsObj) (d : DescObj) :
    sdTail cfg (restructuredObj p d) = true ↔
      ((d.deviceMessageType = some (JSVal.str "CONSULTATION_ENDED")
          ∧ d.sendTo = some (JSVal.str "clinician"))
        ∨ d.isRaisedHand = some (JSVal.bool true)
        ∨ (d.deviceMessageType = some (JSVal.str "CONSULTATION_ENDED")
          ∧ allowListOk cfg (restructuredObj p d) = true)) := by
  simp only [sdTail, Bool.or_eq_true, Bool.and_eq_true, decide_eq_true_eq, descDmt,
    descSendTo, descRaised, restructuredObj, baseFinal, allowListOk]
  tauto

lemma sd_full_iff (cfg : Config) (p : PropsObj) (d : DescObj) :
    ((cfg.enabledFlag && !jsTruthyOpt d.handledAt) || sdTail cfg (restructuredObj p d)) = true ↔
      ((cfg.enabledFlag = true ∧ jsTruthyOpt d.handledAt = false)
        ∨ (d.deviceMessageType = some (JSVal.str "CONSULTATION_ENDED")
            ∧ d.sendTo = some (JSVal.str "clinician"))
        ∨ d.isRaisedHand = some (JSVal.bool true)
        ∨ (d.deviceMessageType = some (JSVal.str "CONSULTATION_ENDED")
            ∧ allowListOk cfg (restructuredObj p d) = true)) := by
  rw [Bool.or_eq_true, Bool.and_eq_true, Bool.not_eq_true', sdTail_restructured]

/-- C1: the claim that a ShowEvent is emitted only when the notifications
feature flag is set fails on the code: because `&&` binds tighter than `||`,
the flag only guards the first disjunct.  The exact eligibility of a show call
on a parseable truthy description is: (flag set and not already handled), or
(end-of-session and recipient clinician), or raised-hand, or (end-of-session
and allow-list pass) — the last three regardless of the flag. -/
theorem show_eligibility_exact
    (p : PropsObj) (s : String) (d : DescObj) (type : Option NTType) (cfg : Config)
    (C : NTimeout) (now : Nat)
    (hdesc : p.description = some { raw := s, parsed := some d }) (hs : s ≠ "") :
    emitted (showNotification (.obj p) type cfg C now) = true ↔
      ((cfg.enabledFlag = true ∧ jsTruthyOpt d.handledAt = false)
        ∨ (d.deviceMessageType = some (JSVal.str "CONSULTATION_ENDED")
            ∧ d.sendTo = some (JSVal.str "clinician"))
        ∨ d.isRaisedHand = some (JSVal.bool true)
        ∨ (d.deviceMessageType = some (JSVal.str "CONSULTATION_ENDED")
            ∧ allowListOk cfg (restructuredObj p d) = true)) := by
  rw [show_run_obj_parsed type cfg C now hdesc hs, ← sd_full_iff cfg p d]
  cases hb :
      ((cfg.enabledFlag && !jsTruthyOpt d.handledAt) || sdTail cfg (restructuredObj p d)) <;>
    simp [hb, emitted, emittedEvent]

/-- C1 counterexample: with the feature flag unset, a raised-hand payload is
still displayed — `show` emits a ShowEvent. -/
theorem show_flag_unset_still_emits_cex :
    cfgOff.enabledFlag = false
      ∧ emitted (showNotification (PropsArg.obj pRaise) none cfgOff Cdemo 7) = true := by
  exact ⟨rfl, rfl⟩

/-- C1 witness: the exact eligibility characterization applied at the concrete
raised-hand payload with the flag unset. -/
theorem show_eligibility_exact_witness :
    emitted (showNotification (PropsArg.obj pRaiseU) none cfgOff Cdemo 9) = true :=
  (show_eligibility_exact pRaiseU raiseRaw draise none cfgOff Cdemo 9 rfl
    (by decide)).mpr (Or.inr (Or.inr (Or.inl rfl)))

lemma isAudioMutedDesc_isSome_iff (d : DescObj) :
    (isAudioMutedDesc (some (.parsed d))).isSome = true ↔
      (d.deviceMessageType = some (JSVal.str "PAUSE_SESSION")
        ∨ d.deviceMessageType = some (JSVal.str "RESUME_SESSION")) := by
  by_cases h1 : d.deviceMessageType = some (JSVal.str "PAUSE_SESSION") <;>
    by_cases h2 : d.deviceMessageType = some (JSVal.str "RESUME_SESSION") <;>
      simp [isAudioMutedDesc, descDmt, h1, h2]

/-- C2 (amended): for an eligible show call on a parseable truthy description,
the emitted uid is the caller-supplied uid when that uid is truthy — a present
but falsy uid (for example the empty string) is replaced by the time-derived
value — and otherwise the time-derived value; the timeout is INSTANT exactly
when `deviceMessageType` is PAUSE_SESSION or RESUME_SESSION, else LONG. -/
theorem show_event_uid_timeout
    (p : PropsObj) (s : String) (d : DescObj) (type : Option NTType) (cfg : Config)
    (C : NTimeout) (now : Nat) (ev : ShowEvent) (rp : RArg)
    (hdesc : p.description = some { raw := s, parsed := some d }) (hs : s ≠ "")
    (hrun : showNotification (.obj p) type cfg C now = .ok (some ev, rp)) :
    (∀ v, p.uid = some v → v.truthy = true → ev.uid = v)
      ∧ (∀ v, p.uid = some v → v.truthy = false → ev.uid = JSVal.str (Nat.repr now))
      ∧ (p.uid = none → ev.uid = JSVal.str (Nat.repr now))
      ∧ ev.timeout = (if d.deviceMessageType = some (JSVal.str "PAUSE_SESSION")
            ∨ d.deviceMessageType = some (JSVal.str "RESUME_SESSION")
          then C.INSTANT else C.LONG) := by
  rw [show_run_obj_parsed type cfg C now hdesc hs] at hrun
  by_cases hb :
      ((cfg.enabledFlag && !jsTruthyOpt d.handledAt) || sdTail cfg (restructuredObj p d)) = true
  · rw [if_pos hb] at hrun
    have h' := hrun
    simp only [Except.ok.injEq, Prod.mk.injEq, Option.some.injEq] at h'
    obtain ⟨hev, -⟩ := h'
    subst hev
    refine ⟨?_, ?_, ?_, ?_⟩
    · intro v hv htr
      simp [jsOr, hv, htr]
    · intro v hv htr
      simp [jsOr, hv, htr]
    · intro hv
      simp [jsOr, hv]
    · by_cases hmm : (isAudioMutedDesc (some (.parsed d))).isSome = true
      · rw [if_pos hmm, if_pos ((isAudioMutedDesc_isSome_iff d).mp hmm)]
      · rw [if_neg hmm, if_neg (fun hp => hmm ((isAudioMutedDesc_isSome_iff d).mpr hp))]
  · rw [if_neg hb] at hrun
    simp at hrun

/-- C2 counterexample: a present but falsy (empty-string) caller-supplied uid
is not used — the emitted uid is derived from the current time instead. -/
theorem show_uid_falsy_replaced_cex :
    pUidEmpty.uid = some (JSVal.str "")
      ∧ (emittedEvent (showNotification (PropsArg.obj pUidEmpty) none cfgOn Cdemo 42)).map
          ShowEvent.uid = some (JSVal.str "42")
      ∧ JSVal.str "" ≠ JSVal.str "42" := by
  refine ⟨rfl, rfl, by decide⟩

/-- C2 witness: the uid/timeout rule applied at a concrete eligible call with
a truthy caller-supplied uid and no PAUSE/RESUME marker. -/
theorem show_event_uid_timeout_witness :
    evRaiseU.uid = JSVal.str "alpha" ∧ evRaiseU.timeout = JSVal.num 10000 := by
  have h := show_event_uid_timeout pRaiseU raiseRaw draise none cfgOn Cdemo 7 evRaiseU
    (RArg.obj (dispProps pRaiseU draise)) rfl (by decide) rfl
  exact ⟨h.1 (JSVal.str "alpha") rfl rfl, h.2.2.2.trans (by decide)⟩

/-- C3: `hideNotification` dispatch order.  The hide event (with the uid and
the conference active at hide time) is dispatched exactly once; when the
snapshot declares a mic-mute state (`isMicMuted` non-null) a `muteLocal`
command for the local AUDIO device is dispatched before the hide event; when
the snapshot signals end-of-stream, `appNavigate` is dispatched exactly once
and only after the hide event; with no snapshot, the trace is exactly the
hide event and nothing else. -/
theorem hide_effect_sequencing (uid : String) (snap : Option FinalProps)
    (conference : Option String) :
    countEff (HideEffect.hideEvent uid conference) (hideNotification uid snap conference) = 1
      ∧ (∀ n b, snap = some n → n.isMicMuted = some (some b) →
          ∃ i j, i < j
            ∧ (hideNotification uid snap conference).get? i
                = some (HideEffect.muteLocal b MediaType.AUDIO)
            ∧ (hideNotification uid snap conference).get? j
                = some (HideEffect.hideEvent uid conference))
      ∧ (∀ n, snap = some n → n.isEndStream = some true →
          countEff HideEffect.appNavigate (hideNotification uid snap conference) = 1
            ∧ ∃ i j, i < j
              ∧ (hideNotification uid snap conference).get? i
                  = some (HideEffect.hideEvent uid conference)
              ∧ (hideNotification uid snap conference).get? j = some HideEffect.appNavigate)
      ∧ (snap = none →
          hideNotification uid snap conference = [HideEffect.hideEvent uid conference]) := by
  cases snap with
  | none => simp [hideNotification, countEff]
  | some n =>
    refine ⟨?_, ?_, ?_, ?_⟩
    · by_cases he : n.isEndStream = some true <;>
        rcases hm : n.isMicMuted with _ | _ | b <;>
          simp [hideNotification, countEff, hm, he]
    · intro n' b hsn hm
      obtain rfl : n = n' := by injection hsn
      by_cases he : n.isEndStream = some true <;>
        · refine ⟨0, 1, by omega, ?_, ?_⟩ <;> simp [hideNotification, hm, he]
    · intro n' hsn he
      obtain rfl : n = n' := by injection hsn
      rcases hm : n.isMicMuted with _ | _ | b
      · exact ⟨by simp [hideNotification, countEff, hm, he],
          0, 1, by omega, by simp [hideNotification, hm, he], by simp [hideNotification, hm, he]⟩
      · exact ⟨by simp [hideNotification, countEff, hm, he],
          0, 1, by omega, by simp [hideNotification, hm, he], by simp [hideNotification, hm, he]⟩
      · exact ⟨by simp [hideNotification, countEff, hm, he],
          1, 2, by omega, by simp [hideNotification, hm, he], by simp [hideNotification, hm, he]⟩
    · intro h
      cases h

/-- C3 witness: the sequencing applied at a concrete snapshot that both
declares a mute state and signals end-of-stream, and at an omitted snapshot. -/
theorem hide_effect_sequencing_witness :
    countEff HideEffect.appNavigate (hideNotification "u" (some snapW) (some "c")) = 1
      ∧ hideNotification "u" none (some "c") = [HideEffect.hideEvent "u" (some "c")] :=
  ⟨((hide_effect_sequencing "u" (some snapW) (some "c")).2.2.1 snapW rfl rfl).1,
    (hide_effect_sequencing "u" none (some "c")).2.2.2 rfl⟩

lemma show_descriptionless (p : PropsObj) (hp : p.description = none) (type : Option NTType)
    (cfg : Config) (C : NTimeout) (now : Nat) (hf : cfg.enabledFlag = true) :
    showNotification (.obj p) type cfg C now = .error JsErr.typeError := by
  simp [showNotification, restructureProps, hp, shouldDisplay, shouldDisplayObj,
    descHandledAt, baseFinal, hf, RArg.truthy]

lemma show_descriptionless_off (p : PropsObj) (hp : p.description = none) (type : Option NTType)
    (cfg : Config) (C : NTimeout) (now : Nat) (hf : cfg.enabledFlag = false) :
    showNotification (.obj p) type cfg C now = .ok (none, .obj (baseFinal p)) := by
  simp [showNotification, restructureProps, hp, shouldDisplay, shouldDisplayObj, sdTail,
    descDmt, descSendTo, descRaised, hf, RArg.truthy, baseFinal]

/-- C4 (amended): the join-batch flush.  Above the join-silence threshold the
buffer is cleared and nothing dispatched; an empty buffer likewise dispatches
nothing and ends empty.  A non-empty buffer selects the claimed template props
(one member referencing the name, two members referencing both, three-plus
referencing only the first) and hands them to `showNotification` — but those
props carry no description, so with notifications enabled the dispatch throws
a TypeError that skips the buffer clear (the buffer keeps its names and no
notification is shown), and with notifications disabled nothing is displayed
and the buffer is cleared. -/
theorem join_flush_templates (thr pc : Nat) (cfg : Config) (C : NTimeout) (now : Nat)
    (names : List String) :
    (pc > thr → flushJoined thr pc cfg C now names
        = { dispatched := none, thrown := none, event := none, buffer := [] })
      ∧ (¬ pc > thr → names = [] → flushJoined thr pc cfg C now names
          = { dispatched := none, thrown := none, event := none, buffer := [] })
      ∧ (¬ pc > thr → ∀ a, names = [a] →
          (flushJoined thr pc cfg C now names).dispatched = some (oneMemberProps a))
      ∧ (¬ pc > thr → ∀ a b, names = [a, b] →
          (flushJoined thr pc cfg C now names).dispatched = some (twoMembersProps a b))
      ∧ (¬ pc > thr → ∀ a b c tl, names = a :: b :: c :: tl →
          (flushJoined thr pc cfg C now names).dispatched = some (threePlusProps a))
      ∧ (¬ pc > thr → names ≠ [] → cfg.enabledFlag = true →
          (flushJoined thr pc cfg C now names).thrown = some JsErr.typeError
            ∧ (flushJoined thr pc cfg C now names).event = none
            ∧ (flushJoined thr pc cfg C now names).buffer = names)
      ∧ (¬ pc > thr → names ≠ [] → cfg.enabledFlag = false →
          (flushJoined thr pc cfg C now names).thrown = none
            ∧ (flushJoined thr pc cfg C now names).event = none
            ∧ (flushJoined thr pc cfg C now names).buffer = []) := by
  refine ⟨?_, ?_, ?_, ?_, ?_, ?_, ?_⟩
  · intro h
    simp [flushJoined, h]
  · rintro h rfl
    simp [flushJoined, h]
  · rintro h a rfl
    cases hrun : showNotification (.obj (oneMemberProps a)) (some NTType.SHORT) cfg C now with
    | error e => simp [flushJoined, h, hrun]
    | ok pr =>
      obtain ⟨ev, rp⟩ := pr
      simp [flushJoined, h, hrun]
  · rintro h a b rfl
    cases hrun : showNotification (.obj (twoMembersProps a b)) (some NTType.SHORT) cfg C now with
    | error e => simp [flushJoined, h, hrun]
    | ok pr =>
      obtain ⟨ev, rp⟩ := pr
      simp [flushJoined, h, hrun]
  · rintro h a b c tl rfl
    cases hrun : showNotification (.obj (threePlusProps a)) (some NTType.SHORT) cfg C now with
    | error e => simp [flushJoined, h, hrun]
    | ok pr =>
      obtain ⟨ev, rp⟩ := pr
      simp [flushJoined, h, hrun]
  · intro h hne hf
    rcases names with _ | ⟨a, _ | ⟨b, _ | ⟨c, tl⟩⟩⟩
    · exact absurd rfl hne
    · have hrun := show_descriptionless (oneMemberProps a) rfl (some NTType.SHORT) cfg C now hf
      simp [flushJoined, h, hrun]
    · have hrun := show_descriptionless (twoMembersProps a b) rfl (some NTType.SHORT) cfg C now hf
      simp [flushJoined, h, hrun]
    · have hrun := show_descriptionless (threePlusProps a) rfl (some NTType.SHORT) cfg C now hf
      simp [flushJoined, h, hrun]
  · intro h hne hf
    rcases names with _ | ⟨a, _ | ⟨b, _ | ⟨c, tl⟩⟩⟩
    · exact absurd rfl hne
    · have hrun := show_descriptionless_off (oneMemberProps a) rfl (some NTType.SHORT) cfg C now hf
      simp [flushJoined, h, hrun]
    · have hrun :=
        show_descriptionless_off (twoMembersProps a b) rfl (some NTType.SHORT) cfg C now hf
      simp [flushJoined, h, hrun]
    · have hrun := show_descriptionless_off (threePlusProps a) rfl (some NTType.SHORT) cfg C now hf
      simp [flushJoined, h, hrun]

/-- C4 counterexample: with notifications enabled (the default), flushing the
one-name buffer below the threshold dispatches the one-member template props,
the dispatch throws, no notification is shown, and the buffer is NOT empty
after the flush — it still holds the name. -/
theorem join_flush_not_cleared_cex :
    cfgOn.enabledFlag = true
      ∧ flushJoined 30 1 cfgOn Cdemo 0 ["A"]
          = { dispatched := some (oneMemberProps "A"), thrown := some JsErr.typeError,
              event := none, buffer := ["A"] }
      ∧ (["A"] : List String) ≠ [] := by
  exact ⟨rfl, rfl, by decide⟩

/-- C4 witness: the amended flush rule applied at concrete thresholds, counts,
buffers and flag values. -/
theorem join_flush_templates_witness :
    flushJoined 30 31 cfgOn Cdemo 0 ["A"]
        = { dispatched := none, thrown := none, event := none, buffer := [] }
      ∧ (flushJoined 30 2 cfgOn Cdemo 0 ["A", "B"]).dispatched
          = some (twoMembersProps "A" "B")
      ∧ (flushJoined 30 1 cfgOff Cdemo 0 ["A"]).thrown = none
      ∧ (flushJoined 30 1 cfgOff Cdemo 0 ["A"]).buffer = [] :=
  ⟨(join_flush_templates 30 31 cfgOn Cdemo 0 ["A"]).1 (by decide),
    (join_flush_templates 30 2 cfgOn Cdemo 0 ["A", "B"]).2.2.2.1 (by decide) "A" "B" rfl,
    ((join_flush_templates 30 1 cfgOff Cdemo 0 ["A"]).2.2.2.2.2.2 (by decide) (by decide)
      rfl).1,
    ((join_flush_templates 30 1 cfgOff Cdemo 0 ["A"]).2.2.2.2.2.2 (by decide) (by decide)
      rfl).2.2⟩

lemma emitted_timeout_instant_or_long
    (props0 : PropsArg) (type : Option NTType) (cfg : Config) (C : NTimeout) (now : Nat)
    (ev : ShowEvent) (rp : RArg)
    (h : showNotification props0 type cfg C now = .ok (some ev, rp)) :
    ev.timeout = C.INSTANT ∨ ev.timeout = C.LONG := by
  unfold showNotification at h
  cases hr : restructureProps props0 with
  | error e => rw [hr] at h; simp at h
  | ok r =>
    rw [hr] at h
    dsimp only at h
    by_cases ht : r.truthy = false
    · rw [if_pos ht] at h
      simp at h
    · rw [if_neg ht] at h
      cases hsd : shouldDisplay cfg r with
      | error e => rw [hsd] at h; simp at h
      | ok sd =>
        rw [hsd] at h
        dsimp only at h
        by_cases hb : sd = true
        · rw [if_pos hb] at h
          cases r with
          | obj p =>
            simp only [Except.ok.injEq, Prod.mk.injEq, Option.some.injEq] at h
            obtain ⟨hev, -⟩ := h
            subst hev
            by_cases hmm : (isAudioMuted (.obj p)).isSome = true
            · left
              simp [hmm]
            · right
              simp [hmm]
          | bool b => simp at h
          | num nn => simp at h
          | str ss => simp at h
        · rw [if_neg hb] at h
          simp at h

/-- C5 (amended): `getNotificationTimeout` resolves SHORT to the configured
short override when present (and not nullish), else the built-in SHORT
default; likewise for MEDIUM and LONG; any other class (including STICKY)
resolves to the STICKY value, which is falsy and so never schedules an
auto-hide timer.  However `showNotification` never consults it: every emitted
ShowEvent carries the INSTANT or the LONG timeout regardless of the
timeout-class argument. -/
theorem timeout_resolution_exact :
    (∀ (nt : Option TimeoutOverrides) (C : NTimeout) (v : JSVal),
        nt.bind (·.short) = some v → v ≠ JSVal.null →
        getNotificationTimeout (some NTType.SHORT) nt C = v)
      ∧ (∀ (nt : Option TimeoutOverrides) (C : NTimeout),
          (nt.bind (·.short) = none ∨ nt.bind (·.short) = some JSVal.null) →
          getNotificationTimeout (some NTType.SHORT) nt C = C.SHORT)
      ∧ (∀ (nt : Option TimeoutOverrides) (C : NTimeout) (v : JSVal),
          nt.bind (·.medium) = some v → v ≠ JSVal.null →
          getNotificationTimeout (some NTType.MEDIUM) nt C = v)
      ∧ (∀ (nt : Option TimeoutOverrides) (C : NTimeout),
          (nt.bind (·.medium) = none ∨ nt.bind (·.medium) = some JSVal.null) →
          getNotificationTimeout (some NTType.MEDIUM) nt C = C.MEDIUM)
      ∧ (∀ (nt : Option TimeoutOverrides) (C : NTimeout) (v : JSVal),
          nt.bind (·.long) = some v → v ≠ JSVal.null →
          getNotificationTimeout (some NTType.LONG) nt C = v)
      ∧ (∀ (nt : Option TimeoutOverrides) (C : NTimeout),
          (nt.bind (·.long) = none ∨ nt.bind (·.long) = some JSVal.null) →
          getNotificationTimeout (some NTType.LONG) nt C = C.LONG)
      ∧ (∀ (t : Option NTType) (nt : Option TimeoutOverrides) (C : NTimeout),
          t ≠ some NTType.SHORT → t ≠ some NTType.MEDIUM → t ≠ some NTType.LONG →
          getNotificationTimeout t nt C = C.STICKY)
      ∧ (∀ (C : NTimeout) (u : String) (st : TimerState),
          createTimeoutId { timeout := C.STICKY, uid := u } st = st)
      ∧ (∀ (props0 : PropsArg) (type : Option NTType) (cfg : Config) (C : NTimeout)
          (now : Nat) (ev : ShowEvent) (rp : RArg),
          showNotification props0 type cfg C now = .ok (some ev, rp) →
          ev.timeout = C.INSTANT ∨ ev.timeout = C.LONG) := by
  refine ⟨?_, ?_, ?_, ?_, ?_, ?_, ?_, ?_, ?_⟩
  · intro nt C v hv hnn
    simp [getNotificationTimeout, nullishGet, hv, hnn]
  · rintro nt C (hv | hv) <;> simp [getNotificationTimeout, nullishGet, hv]
  · intro nt C v hv hnn
    simp [getNotificationTimeout, nullishGet, hv, hnn]
  · rintro nt C (hv | hv) <;> simp [getNotificationTimeout, nullishGet, hv]
  · intro nt C v hv hnn
    simp [getNotificationTimeout, nullishGet, hv, hnn]
  · rintro nt C (hv | hv) <;> simp [getNotificationTimeout, nullishGet, hv]
  · intro t nt C h1 h2 h3
    simp [getNotificationTimeout, h1, h2, h3]
  · intro C u st
    simp [createTimeoutId, C.sticky_falsy]
  · intro props0 type cfg C now ev rp h
    exact emitted_timeout_instant_or_long props0 type cfg C now ev rp h

/-- C5 counterexample: a show call with timeout class SHORT and a configured
short override of 1234 still emits the LONG timeout — `showNotification`
ignores `getNotificationTimeout` and the class argument entirely. -/
theorem show_ignores_timeout_class_cex :
    getNotificationTimeout (some NTType.SHORT) (some { short := some (JSVal.num 1234) }) Cdemo
        = JSVal.num 1234
      ∧ (emittedEvent (showNotification (PropsArg.obj pRaise) (some NTType.SHORT) cfgOn Cdemo 7)).map
          ShowEvent.timeout = some (JSVal.num 10000)
      ∧ JSVal.num 10000 ≠ JSVal.num 1234 := by
  refine ⟨rfl, rfl, by decide⟩

/-- C5 witness: the resolution rule applied at concrete overrides, at the
STICKY class, and at a concrete emitting run. -/
theorem timeout_resolution_exact_witness :
    getNotificationTimeout (some NTType.SHORT) (some { short := some (JSVal.num 77) }) Cdemo
        = JSVal.num 77
      ∧ getNotificationTimeout (some NTType.MEDIUM) none Cdemo = Cdemo.MEDIUM
      ∧ getNotificationTimeout (some NTType.STICKY) none Cdemo = Cdemo.STICKY
      ∧ createTimeoutId { timeout := Cdemo.STICKY, uid := "u" } tsInit = tsInit :=
  ⟨timeout_resolution_exact.1 (some { short := some (JSVal.num 77) }) Cdemo
      (JSVal.num 77) rfl (by decide),
    timeout_resolution_exact.2.2.2.1 none Cdemo (Or.inl rfl),
    timeout_resolution_exact.2.2.2.2.2.2.1 (some NTType.STICKY) none Cdemo
      (by decide) (by decide) (by decide),
    timeout_resolution_exact.2.2.2.2.2.2.2.1 Cdemo "u" tsInit⟩

/-- C6: for every eligible show call on a parseable truthy description, the
emitted description text is: the raw message content for `"MESSAGE"`, the
fixed consultation-ended string for `"CONSULTATION_ENDED"`, the fixed
session-paused string for `"PAUSE_SESSION"`, the fixed session-resumed string
for `"RESUME_SESSION"`, and the fixed raised-a-hand string otherwise. -/
theorem show_description_resolution
    (p : PropsObj) (s : String) (d : DescObj) (type : Option NTType) (cfg : Config)
    (C : NTimeout) (now : Nat) (ev : ShowEvent) (rp : RArg)
    (hdesc : p.description = some { raw := s, parsed := some d }) (hs : s ≠ "")
    (hrun : showNotification (.obj p) type cfg C now = .ok (some ev, rp)) :
    ev.props.description =
      (if d.deviceMessageType = some (JSVal.str "MESSAGE") then d.content.map DescFin.text
       else if d.deviceMessageType = some (JSVal.str "CONSULTATION_ENDED") then
         some (.text (JSVal.str "Consulation phase has ended"))
       else if d.deviceMessageType = some (JSVal.str "PAUSE_SESSION") then
         some (.text (JSVal.str "Session is paused"))
       else if d.deviceMessageType = some (JSVal.str "RESUME_SESSION") then
         some (.text (JSVal.str "Session is resumed"))
       else some (.text (JSVal.str "Raised a Hand"))) := by
  rw [show_run_obj_parsed type cfg C now hdesc hs] at hrun
  by_cases hb :
      ((cfg.enabledFlag && !jsTruthyOpt d.handledAt) || sdTail cfg (restructuredObj p d)) = true
  · rw [if_pos hb] at hrun
    simp only [Except.ok.injEq, Prod.mk.injEq, Option.some.injEq] at hrun
    obtain ⟨hev, -⟩ := hrun
    subst hev
    simp [dispProps, resolveDescription, descDmt, descContent, restructuredObj, baseFinal]
  · rw [if_neg hb] at hrun
    simp at hrun

/-- C6 witness: the resolution applied at a concrete eligible PAUSE_SESSION
payload yields the session-paused text. -/
theorem show_description_resolution_witness :
    evPause.props.description = some (DescFin.text (JSVal.str "Session is paused")) := by
  have h := show_description_resolution pPause pauseRaw dPause none cfgOn Cdemo 7 evPause
    (RArg.obj (dispProps pPause dPause)) rfl (by decide) rfl
  exact h.trans (by decide)

lemma mapSet_keys_mem (m : List (String × Nat)) (k : String) (v : Nat) (a : String) :
    a ∈ (mapSet m k v).map Prod.fst ↔ a ∈ m.map Prod.fst ∨ a = k := by
  induction m with
  | nil => simp [mapSet]
  | cons hd tl ih =>
    cases hd with
    | mk k' v' =>
      by_cases hk : k' = k
      · subst hk
        simp [mapSet]
        tauto
      · simp [mapSet, hk, ih]
        tauto

lemma mapSet_keys_nodup (m : List (String × Nat)) (k : String) (v : Nat)
    (h : (m.map Prod.fst).Nodup) : ((mapSet m k v).map Prod.fst).Nodup := by
  induction m with
  | nil => simp [mapSet]
  | cons hd tl ih =>
    cases hd with
    | mk k' v' =>
      simp only [List.map_cons, List.nodup_cons] at h
      by_cases hk : k' = k
      · have hms : mapSet ((k', v') :: tl) k v = (k, v) :: tl := by simp [mapSet, hk]
        rw [hms]
        simp only [List.map_cons, List.nodup_cons]
        exact ⟨hk ▸ h.1, h.2⟩
      · have hms : mapSet ((k', v') :: tl) k v = (k', v') :: mapSet tl k v := by
          simp [mapSet, hk]
        rw [hms]
        simp only [List.map_cons, List.nodup_cons]
        refine ⟨fun hc => ?_, ih h.2⟩
        rcases (mapSet_keys_mem tl k v k').mp hc with h1 | h1
        · exact h.1 h1
        · exact hk h1

/-- C7 (amended): the timer registry (a `Map`) holds at most one entry per uid
at every reachable state, but scheduling a timer for a uid that already has
one arms a second timer without cancelling the first — `createTimeoutId`
appends a fresh armed timer for every truthy timeout, so the armed count for
the scheduled uid always grows by one. -/
theorem timer_registry_exact :
    (∀ s, TimerReach s → (s.timers.map Prod.fst).Nodup)
      ∧ (∀ (s : TimerState) (n : TimerNotif), n.timeout.truthy = true →
          (createTimeoutId n s).armed = s.armed ++ [(n.uid, s.nextId)]
            ∧ ∀ u, armedCount u (createTimeoutId n s)
                = armedCount u s + (if n.uid = u then 1 else 0)) := by
  constructor
  · intro s hs
    induction hs with
    | init => simp [tsInit]
    | schedule n hr ih =>
      by_cases ht : n.timeout.truthy = true
      · simp only [createTimeoutId, ht, if_true]
        exact mapSet_keys_nodup _ _ _ ih
      · rw [Bool.not_eq_true] at ht
        simp only [createTimeoutId, ht]
        simpa using ih
    | fire e hr hmem ih => simpa using ih
  · intro s n ht
    refine ⟨by simp [createTimeoutId, ht], ?_⟩
    intro u
    by_cases hu : n.uid = u <;>
      simp [createTimeoutId, ht, armedCount, List.countP_append, hu]

/-- C7 counterexample: scheduling twice for uid `"u"` reaches a state with two
armed timers for `"u"` (the first was never cancelled) while the registry
holds the second handle; after that timer fires, the registry entry is still
present. -/
theorem duplicate_uid_two_armed_timers_cex :
    TimerReach tsTwo ∧ armedCount "u" tsTwo = 2 ∧ tsTwo.timers = [("u", 1)]
      ∧ TimerReach tsFired ∧ tsFired.timers = [("u", 1)] := by
  refine ⟨TimerReach.schedule _ (TimerReach.schedule _ TimerReach.init), by decide, by decide,
    TimerReach.fire ("u", 1)
      (TimerReach.schedule _ (TimerReach.schedule _ TimerReach.init)) (by decide),
    by decide⟩

/-- C7 witness: the amended registry property applied at the initial state and
at a concrete schedule. -/
theorem timer_registry_exact_witness :
    (tsInit.timers.map Prod.fst).Nodup
      ∧ (createTimeoutId { timeout := JSVal.num 5, uid := "u" } tsInit).armed
          = tsInit.armed ++ [("u", tsInit.nextId)] :=
  ⟨timer_registry_exact.1 tsInit TimerReach.init,
    (timer_registry_exact.2 tsInit { timeout := JSVal.num 5, uid := "u" } (by decide)).1⟩

/-- C8 (code bug): an empty or falsy payload is not always a silent no-op.  A
`null` payload throws a `TypeError` inside `restructureProps` before the
falsy-payload guard `if (!props) return` is reached; the empty object payload
(including the `{}` default for a missing argument) throws at the unguarded
`props.description.handledAt` access once the feature flag is set.  Only falsy
primitive payloads (such as `false`) reach the guard and no-op. -/
theorem show_null_payload_throws :
    showNotification PropsArg.null none cfgOff Cdemo 0 = .error JsErr.typeError
      ∧ showNotification (PropsArg.obj {}) none cfgOn Cdemo 0 = .error JsErr.typeError
      ∧ showNotification PropsArg.undef none cfgOn Cdemo 0 = .error JsErr.typeError
      ∧ showNotification (PropsArg.bool false) none cfgOn Cdemo 0
          = .ok (none, RArg.bool false) := by
  exact ⟨rfl, rfl, rfl, rfl⟩

/-- C9 (code bug): `showNotification` is not total on payloads with no
`description` field.  The batched-join props built by the flush (for example
the one-member template) have no description, and feeding them to
`showNotification` with notifications enabled throws a `TypeError` at the
unguarded `props.description.handledAt` access (line 165 lacks the optional
chaining used on every neighbouring access). -/
theorem show_descriptionless_props_throws :
    (flushJoined 30 1 cfgOn Cdemo 0 ["A"]).dispatched = some (oneMemberProps "A")
      ∧ showNotification (PropsArg.obj (oneMemberProps "A")) (some NTType.SHORT) cfgOn Cdemo 0
          = .error JsErr.typeError := by
  exact ⟨rfl, rfl⟩

/-- C10: `showNotification` mutates the caller's props object in place (embedded
as the returned caller-visible value): on a parseable truthy description the
caller's object ends up with `messageId`, `title`, `isEndStream`, `isMicMuted`
set and `description` replaced — by the parsed object when nothing is
displayed, and by the resolved display text when a ShowEvent is emitted, in
which case the event carries the very same mutated object. -/
theorem show_mutates_caller_props
    (p : PropsObj) (s : String) (d : DescObj) (type : Option NTType) (cfg : Config)
    (C : NTimeout) (now : Nat) (evOpt : Option ShowEvent) (rp : RArg)
    (hdesc : p.description = some { raw := s, parsed := some d }) (hs : s ≠ "")
    (hrun : showNotification (.obj p) type cfg C now = .ok (evOpt, rp)) :
    (evOpt = none → rp = RArg.obj (restructuredObj p d))
      ∧ (∀ ev, evOpt = some ev → rp = RArg.obj (dispProps p d) ∧ ev.props = dispProps p d)
      ∧ (restructuredObj p d).messageId = some (messageIdOf d)
      ∧ (restructuredObj p d).title = titleOf d
      ∧ (restructuredObj p d).isEndStream
          = some (decide (d.deviceMessageType = some (JSVal.str "CONSULTATION_ENDED")))
      ∧ (restructuredObj p d).isMicMuted = some (isAudioMutedDesc (some (.parsed d)))
      ∧ (dispProps p d).messageId = some (messageIdOf d)
      ∧ (dispProps p d).title = titleOf d
      ∧ (dispProps p d).isEndStream
          = some (decide (d.deviceMessageType = some (JSVal.str "CONSULTATION_ENDED")))
      ∧ (dispProps p d).isMicMuted = some (isAudioMutedDesc (some (.parsed d)))
      ∧ (dispProps p d).description = resolveDescription (some (.parsed d))
      ∧ (restructuredObj p d).uid = p.uid ∧ (dispProps p d).uid = p.uid
      ∧ (restructuredObj p d).titleKey = p.titleKey
      ∧ (dispProps p d).titleKey = p.titleKey := by
  rw [show_run_obj_parsed type cfg C now hdesc hs] at hrun
  by_cases hb :
      ((cfg.enabledFlag && !jsTruthyOpt d.handledAt) || sdTail cfg (restructuredObj p d)) = true
  · rw [if_pos hb] at hrun
    simp only [Except.ok.injEq, Prod.mk.injEq] at hrun
    obtain ⟨hev, hrp⟩ := hrun
    refine ⟨?_, ?_, rfl, rfl, rfl, rfl, rfl, rfl, rfl, rfl, rfl, rfl, rfl, rfl, rfl⟩
    · intro h0
      rw [← hev] at h0
      simp at h0
    · intro ev hevv
      rw [← hev] at hevv
      injection hevv with h2
      exact ⟨hrp.symm, h2 ▸ rfl⟩
  · rw [if_neg hb] at hrun
    simp only [Except.ok.injEq, Prod.mk.injEq] at hrun
    obtain ⟨hev, hrp⟩ := hrun
    refine ⟨fun _ => hrp.symm, ?_, rfl, rfl, rfl, rfl, rfl, rfl, rfl, rfl, rfl, rfl, rfl, rfl, rfl⟩
    intro ev hevv
    rw [← hev] at hevv
    simp at hevv

/-- C10 witness: at the concrete PAUSE_SESSION payload, the emitted event's
props are the caller's mutated object, whose added fields are observable. -/
theorem show_mutates_caller_props_witness :
    evPause.props = dispProps pPause dPause
      ∧ (dispProps pPause dPause).isMicMuted = some (some true)
      ∧ (dispProps pPause dPause).description
          = some (DescFin.text (JSVal.str "Session is paused")) := by
  have h := show_mutates_caller_props pPause pauseRaw dPause none cfgOn Cdemo 7 (some evPause)
    (RArg.obj (dispProps pPause dPause)) rfl (by decide) rfl
  exact ⟨(h.2.1 evPause rfl).2, by decide, by decide⟩
